import Mathlib

/-!
# Shallow embedding of `src/nhl_predictor.py`

The script is a Streamlit dashboard: six HTTP fetch helpers over a RapidAPI
NHL endpoint, a pure weighted-score heuristic (`calculate_team_score`,
`predict_game`), and a `main` flow that fetches a schedule, standings and
team/player details and renders a prediction.

Modelling conventions:
* Python numbers are modelled as exact rationals (`ℚ`); `round(x, 3)` is
  modelled as decimal round-half-to-even (`pyRound3`).
* Python dicts that the code reads with fixed string keys become structures
  whose fields are `Option`-valued; `d.get(k, default)` becomes
  `Option.getD`.  Dicts used as lookup tables keyed by ids become
  association lists with Python's insert-or-overwrite semantics
  (`pyInsert`).
* Side effects (Streamlit widget/render calls, HTTP GETs) are recorded in a
  trace: an effectful computation is a pair of the effects it performed and
  either its value or the uncaught Python exception it raised (`EffM`).
  The outcome of each `requests.get` call is an oracle input
  (`HttpResult`): either a response or a raised exception.
* The `Effect` vocabulary also contains file/pickle writes and classifier
  fit/predict calls, so that their absence from every trace is statable.
-/

namespace NHL

/-- A Python exception value.  `requests` errors reach the fetch helpers as
`raised`; `keyError` models `KeyError` from `dict[...]`/dataframe column
access. -/
inductive PyExn where
  | raised (msg : String)
  | keyError
deriving DecidableEq

/-- A minimal JSON value, used for response payloads the script passes
through without inspecting (`fetch_team_stats`, `fetch_player_stats`). -/
inductive Json where
  | null
  | bool (b : Bool)
  | num (q : ℚ)
  | str (s : String)
  | arr (elements : List Json)
  | obj (fields : List (String × Json))

/-- The per-team standings entry built by `fetch_standings`, and also the
argument shape of `calculate_team_score` (a dict read with three fixed
keys, each possibly absent). -/
structure TeamStats where
  winPercentage : Option ℚ
  goalDifferential : Option ℚ
  corsiForPercentage : Option ℚ
deriving DecidableEq

/-- The empty dict `{}` used when a team is absent from the standings. -/
def emptyStats : TeamStats := ⟨none, none, none⟩

/-- A team object as read by the script: only `id` and `name` are ever
accessed. -/
structure Team where
  id : Option Int
  name : Option String
deriving DecidableEq

def emptyTeam : Team := ⟨none, none⟩

/-- The value of `game["teams"]["home"]` (resp. `"away"`): a dict read only
at key `"team"`. -/
structure TeamSlot where
  team : Option Team
deriving DecidableEq

def emptyTeamSlot : TeamSlot := ⟨none⟩

/-- The value of `game["teams"]`: a dict read at keys `"home"` and
`"away"`. -/
structure GameTeams where
  home : Option TeamSlot
  away : Option TeamSlot
deriving DecidableEq

def emptyGameTeams : GameTeams := ⟨none, none⟩

/-- A game object from the schedule feed, as far as the script reads it. -/
structure Game where
  teams : Option GameTeams
deriving DecidableEq

/-- `game.get("teams", {}).get("home", {}).get("team", {})`. -/
def gameHomeTeam (game : Game) : Team :=
  ((game.teams.getD emptyGameTeams).home.getD emptyTeamSlot).team.getD emptyTeam

/-- `game.get("teams", {}).get("away", {}).get("team", {})`. -/
def gameAwayTeam (game : Game) : Team :=
  ((game.teams.getD emptyGameTeams).away.getD emptyTeamSlot).team.getD emptyTeam

/-- Python truthiness of an id value (`if not home_id`): absent (`None`) and
`0` are falsy. -/
def pyTruthyId : Option Int → Bool
  | none => false
  | some n => n != 0

/-- Python `str(...)` of a possibly-`None` value interpolated into an
f-string. -/
def showOptStr : Option String → String
  | none => "None"
  | some s => s

/-- Python `str(n).zfill(2)` for the month/day numbers used by the script. -/
def zfill2 (n : Nat) : String :=
  if n < 10 then "0" ++ toString n else toString n

/-- Round-half-to-even to an integer, the tie-breaking rule of Python's
`round`. -/
def roundHalfToEven (q : ℚ) : ℤ :=
  let f : ℤ := ⌊q⌋
  let r : ℚ := q - f
  if r < 1/2 then f
  else if 1/2 < r then f + 1
  else if f % 2 = 0 then f else f + 1

/-- Python `round(x, 3)` in exact-rational semantics. -/
def pyRound3 (q : ℚ) : ℚ := (roundHalfToEven (q * 1000) : ℚ) / 1000

/-- Python dict assignment `d[k] = v`: overwrite the existing binding,
else append (insertion order preserved). -/
def pyInsert {κ β : Type} [BEq κ] (d : List (κ × β)) (k : κ) (v : β) : List (κ × β) :=
  if d.any (fun p => p.1 == k) then
    d.map (fun p => if p.1 == k then (k, v) else p)
  else
    d ++ [(k, v)]

/-- `calculate_team_score(team_stats, is_home)` — lines 126-142 of
`nhl_predictor.py`. -/
def calculate_team_score (team_stats : TeamStats) (is_home : Bool) : ℚ :=
  let win_pct := team_stats.winPercentage.getD 0
  let goal_diff := team_stats.goalDifferential.getD 0
  let corsi := team_stats.corsiForPercentage.getD 0
  let normalized_goal_diff := goal_diff / 20
  let score := win_pct * 0.4 + normalized_goal_diff * 0.3 + corsi * 0.15
  if is_home then score + 0.15 else score

/-- The dict returned by `predict_game`: it has exactly these six keys. -/
structure Prediction where
  homeTeam : String
  awayTeam : String
  homeScore : ℚ
  awayScore : ℚ
  predictedWinner : Option String
  confidence : ℚ
deriving DecidableEq

/-- The standings dict: keys are the `team.get("teamId")` values (possibly
`None`). -/
abbrev Standings := List (Option Int × TeamStats)

/-- `predict_game(game, standings)` — lines 144-175 of `nhl_predictor.py`. -/
def predict_game (game : Game) (standings : Standings) : Option Prediction :=
  let home_team := gameHomeTeam game
  let away_team := gameAwayTeam game
  let home_id := home_team.id
  let away_id := away_team.id
  if !pyTruthyId home_id || !pyTruthyId away_id then none
  else
    let home_stats := (standings.lookup home_id).getD emptyStats
    let away_stats := (standings.lookup away_id).getD emptyStats
    let home_score := calculate_team_score home_stats true
    let away_score := calculate_team_score away_stats false
    let predicted_winner :=
      if home_score ≥ away_score then home_team.name else away_team.name
    let confidence := |home_score - away_score|
    some
      { homeTeam := home_team.name.getD "Unknown"
        awayTeam := away_team.name.getD "Unknown"
        homeScore := pyRound3 home_score
        awayScore := pyRound3 away_score
        predictedWinner := predicted_winner
        confidence := pyRound3 confidence }

/-- A player object from `fetch_team_players`: the script reads its `id`
(for the selectbox options) and `name` (for display). -/
structure Player where
  id : Option Int
  name : Option String
deriving DecidableEq

/-- One observable side effect of the script: a Streamlit render/widget
call or an HTTP GET.  The vocabulary also names effects the program could
have performed but does not — writing a file, dumping a pickle, fitting or
querying a classifier — so that their absence from every trace is a
statable property. -/
inductive Effect where
  | httpGet (endpoint : String)
  | stTitle (s : String)
  | stMarkdown (s : String)
  | stError (s : String)
  | stWarning (s : String)
  | stSubheader (s : String)
  | stSpinner (s : String)
  | stDateInput (label : String)
  | stTextInput (label : String)
  | stSelectbox (label : String)
  | stExpander (label : String)
  | stDataframePrediction (p : Prediction)
  | stDataframePlayers (ps : List Player)
  | stJson (j : Json)
  | fileWrite (path : String)
  | pickleDump (path : String)
  | classifierFit
  | classifierPredict

/-- An effectful computation: the trace of effects it performs, and either
its value or the uncaught Python exception it raises. -/
def EffM (α : Type) : Type := List Effect × Except PyExn α

/-- Sequencing: effects accumulate; an exception aborts the rest (there is
no `try`/`except` anywhere in the script). -/
def EffM.bind {α β : Type} (m : EffM α) (f : α → EffM β) : EffM β :=
  match m with
  | (t, Except.ok a) => (t ++ (f a).1, (f a).2)
  | (t, Except.error e) => (t, Except.error e)

instance : Monad EffM where
  pure a := ([], Except.ok a)
  bind := EffM.bind

/-- Perform one effect. -/
def emit (e : Effect) : EffM Unit := ([e], Except.ok ())

/-- Raise a Python exception. -/
def pyRaise {α : Type} (e : PyExn) : EffM α := ([], Except.error e)

/-- The outcome of one `requests.get` call, supplied as an oracle input:
either a response object or a raised exception. -/
structure HttpResponse (β : Type) where
  status_code : Nat
  body : β

abbrev HttpResult (β : Type) := Except PyExn (HttpResponse β)

/-- The value of `requests.get(...)`: an exception raised by the HTTP call
propagates (nothing catches it). -/
def liftHttp {β : Type} (r : HttpResult β) : EffM (HttpResponse β) :=
  match r with
  | Except.ok resp => ([], Except.ok resp)
  | Except.error e => ([], Except.error e)

/-- The parsed JSON body of the schedule endpoint: read only at key
`"games"`. -/
structure ScheduleBody where
  games : Option (List Game)

/-- The parsed JSON body of the team-list endpoint: read only at key
`"teams"`. -/
structure TeamsBody where
  teams : Option (List Team)

/-- One row of the standings feed, as far as `fetch_standings` reads it. -/
structure StandingRow where
  teamId : Option Int
  winPercentage : Option ℚ
  goalDifferential : Option ℚ
  corsiForPercentage : Option ℚ
deriving DecidableEq

/-- The parsed JSON body of the standings endpoint: read only at key
`"standings"`. -/
structure StandingsBody where
  standings : Option (List StandingRow)

/-- The parsed JSON body of the team-players endpoint: read only at key
`"players"`. -/
structure PlayersBody where
  players : Option (List Player)

/-- The entry `fetch_standings` stores for one row: the three metric keys
are always present, each defaulted to `0` when missing from the row. -/
def standingsRow (team : StandingRow) : TeamStats :=
  { winPercentage := some (team.winPercentage.getD 0)
    goalDifferential := some (team.goalDifferential.getD 0)
    corsiForPercentage := some (team.corsiForPercentage.getD 0) }

/-- `fetch_schedule(year, month, day)` — lines 21-40.  A 404 response
returns `[]` with no UI message; any other non-200 response displays an
error and returns `[]`. -/
def fetch_schedule (_year _month _day : Nat) (resp : HttpResult ScheduleBody) :
    EffM (List Game) := do
  emit (Effect.httpGet "nhlschedule")
  let response ← liftHttp resp
  if response.status_code = 404 then
    pure []
  else if response.status_code ≠ 200 then do
    emit (Effect.stError ("Error fetching schedule data! HTTP " ++ toString response.status_code))
    pure []
  else
    pure (response.body.games.getD [])

/-- `fetch_teams()` — lines 42-58: builds a dict from team id to team
object; `{}` on non-200. -/
def fetch_teams (resp : HttpResult TeamsBody) : EffM (List (Option Int × Team)) := do
  emit (Effect.httpGet "nhlteamlist")
  let response ← liftHttp resp
  if response.status_code ≠ 200 then do
    emit (Effect.stError ("Error fetching teams data! HTTP " ++ toString response.status_code))
    pure []
  else
    pure ((response.body.teams.getD []).foldl (fun acc team => pyInsert acc team.id team) [])

/-- `fetch_standings(season)` — lines 60-81: builds a dict from team id to
the three selected metrics; `{}` on non-200. -/
def fetch_standings (_season : String) (resp : HttpResult StandingsBody) :
    EffM Standings := do
  emit (Effect.httpGet "nhlstandings")
  let response ← liftHttp resp
  if response.status_code ≠ 200 then do
    emit (Effect.stError ("Error fetching standings data! HTTP " ++ toString response.status_code))
    pure []
  else
    pure ((response.body.standings.getD []).foldl
      (fun acc team => pyInsert acc team.teamId (standingsRow team)) [])

/-- Python `str(...)` of a possibly-`None` id interpolated into an
f-string. -/
def showOptId : Option Int → String
  | none => "None"
  | some n => toString n

/-- `fetch_team_stats(team_id)` — lines 83-94: returns the raw JSON body;
`{}` on non-200. -/
def fetch_team_stats (team_id : Option Int) (resp : HttpResult Json) : EffM Json := do
  emit (Effect.httpGet "team-statistic")
  let response ← liftHttp resp
  if response.status_code ≠ 200 then do
    emit (Effect.stError ("Error fetching team stats for team " ++ showOptId team_id
      ++ "! HTTP " ++ toString response.status_code))
    pure (Json.obj [])
  else
    pure response.body

/-- `fetch_team_players(team_id)` — lines 96-109: returns the `"players"`
list; `[]` on non-200. -/
def fetch_team_players (team_id : Option Int) (resp : HttpResult PlayersBody) :
    EffM (List Player) := do
  emit (Effect.httpGet "nhlteamplayers")
  let response ← liftHttp resp
  if response.status_code ≠ 200 then do
    emit (Effect.stError ("Error fetching team players for team " ++ showOptId team_id
      ++ "! HTTP " ++ toString response.status_code))
    pure []
  else
    pure (response.body.players.getD [])

/-- `fetch_player_stats(player_id)` — lines 111-122: returns the raw JSON
body; `{}` on non-200. -/
def fetch_player_stats (player_id : Option Int) (resp : HttpResult Json) : EffM Json := do
  emit (Effect.httpGet "player-statistic")
  let response ← liftHttp resp
  if response.status_code ≠ 200 then do
    emit (Effect.stError ("Error fetching player stats for player " ++ showOptId player_id
      ++ "! HTTP " ++ toString response.status_code))
    pure (Json.obj [])
  else
    pure response.body

/-- The oracle inputs of one top-to-bottom run of `main`: the user's widget
choices and the outcome of every HTTP call the run may make.  Selectbox
choices are indices into the offered options. -/
structure MainInputs where
  year : Nat
  month : Nat
  day : Nat
  schedule_resp : HttpResult ScheduleBody
  teams_resp : HttpResult TeamsBody
  season : String
  standings_resp : HttpResult StandingsBody
  game_choice : Nat
  home_stats_resp : HttpResult Json
  away_stats_resp : HttpResult Json
  home_players_resp : HttpResult PlayersBody
  away_players_resp : HttpResult PlayersBody
  home_player_choice : Nat
  away_player_choice : Nat
  home_player_stats_resp : HttpResult Json
  away_player_stats_resp : HttpResult Json

/-- `st.selectbox`: the user's pick among the offered options (the index is
reduced modulo the length; the empty-options case yields `""`, standing for
Python's `None`, which then fails the dict lookup just as `None` would). -/
def selectFrom (options : List String) (choice : Nat) : String :=
  options.getD (choice % options.length) ""

/-- The dropdown label of one game — lines 229-231. -/
def displayGame (date_str : String) (game : Game) : String :=
  let home_name := (gameHomeTeam game).name.getD "Unknown"
  let away_name := (gameAwayTeam game).name.getD "Unknown"
  date_str ++ " - " ++ away_name ++ " @ " ++ home_name

/-- The introductory markdown block — lines 181-193. -/
def introMarkdown : String :=
  "\n    This application predicts the outcomes of NHL games using historical team statistics.\n    \n    **Endpoints Used:**\n    - **Schedule:** `/nhlschedule?year=YYYY&month=MM&day=DD` (Returns games for a specific day)\n    - **Team List:** `/nhlteamlist`\n    - **Standings:** `/nhlstandings?year=YYYY`\n    - **Team Stats:** `/team-statistic?teamId=...`\n    - **Team Players:** `/nhlteamplayers?teamid=...`\n    - **Player Stats:** `/player-statistic?playerId=...`\n    \n    *Note:* The example parameters (e.g., 2022, a specific day) are just examples. You can change them to fetch data for any day or season.\n    "

/-- One team's expander of the players section — lines 266-294.  The
`format_func` of the player selectbox is display-only formatting and is not
recorded; reading the dataframe's `id` column raises `KeyError` when no
player row has an `id` key (no column to select). -/
def playersSection (team : Team) (players_resp : HttpResult PlayersBody)
    (player_choice : Nat) (player_stats_resp : HttpResult Json)
    (select_label stats_label : String) : EffM Unit := do
  emit (Effect.stExpander (showOptStr team.name ++ " Players"))
  let players ← fetch_team_players team.id players_resp
  if players.isEmpty then
    pure ()
  else do
    emit (Effect.stDataframePlayers players)
    if players.all (fun p => p.id.isNone) then
      pyRaise PyExn.keyError
    else do
      let ids := players.map Player.id
      emit (Effect.stSelectbox select_label)
      let selected_player := ids.getD (player_choice % ids.length) none
      if pyTruthyId selected_player then do
        emit (Effect.stMarkdown stats_label)
        let player_stats ← fetch_player_stats selected_player player_stats_resp
        emit (Effect.stJson player_stats)

/-- One `if home_team_id: st.expander(... Stats)` block of lines 257-264:
shown only for a truthy team id. -/
def teamStatsExpander (team : Team) (stats_resp : HttpResult Json) : EffM Unit := do
  if pyTruthyId team.id then do
    emit (Effect.stExpander (showOptStr team.name ++ " Stats"))
    let team_stats ← fetch_team_stats team.id stats_resp
    emit (Effect.stJson team_stats)

/-- One `if home_team_id:` guard of lines 267-294 around a players
expander. -/
def playersExpander (team : Team) (players_resp : HttpResult PlayersBody)
    (player_choice : Nat) (player_stats_resp : HttpResult Json)
    (select_label stats_label : String) : EffM Unit :=
  if pyTruthyId team.id then
    playersSection team players_resp player_choice player_stats_resp select_label stats_label
  else
    pure ()

/-- The post-prediction part of `main` — lines 249-294: team statistics
expanders, then the players section, each shown only for a truthy team
id. -/
def teamInfoSection (inp : MainInputs) (selected_game : Game) : EffM Unit := do
  let home_team := gameHomeTeam selected_game
  let away_team := gameAwayTeam selected_game
  emit (Effect.stSubheader "Team Statistics")
  teamStatsExpander home_team inp.home_stats_resp
  teamStatsExpander away_team inp.away_stats_resp
  emit (Effect.stSubheader "Team Players and Player Statistics")
  playersExpander home_team inp.home_players_resp inp.home_player_choice
    inp.home_player_stats_resp "Select a Home Team Player for stats" "**Home Player Stats:**"
  playersExpander away_team inp.away_players_resp inp.away_player_choice
    inp.away_player_stats_resp "Select an Away Team Player for stats" "**Away Player Stats:**"

/-- The part of `main` reached when the schedule is non-empty — lines
215-294: fetch teams and standings, offer the games, predict the selected
one and render, then show the team/player details. -/
def mainAfterSchedule (inp : MainInputs) (date_str : String) (schedule : List Game) :
    EffM Unit := do
  emit (Effect.stSpinner "Fetching team list...")
  let _teams ← fetch_teams inp.teams_resp
  emit (Effect.stTextInput "Enter season for standings (e.g., 2022):")
  emit (Effect.stSpinner "Fetching standings...")
  let standings ← fetch_standings inp.season inp.standings_resp
  let game_options := schedule.map (displayGame date_str)
  let game_map := schedule.foldl (fun m g => pyInsert m (displayGame date_str g) g) []
  emit (Effect.stSelectbox "Select a game to predict its outcome:")
  let selected_game_str := selectFrom game_options inp.game_choice
  match game_map.lookup selected_game_str with
  | none => pyRaise PyExn.keyError
  | some selected_game =>
    match predict_game selected_game standings with
    | some prediction => do
      emit (Effect.stSubheader "Prediction Results")
      emit (Effect.stDataframePrediction prediction)
      emit (Effect.stMarkdown ("**Predicted Winner:** " ++ showOptStr prediction.predictedWinner))
      emit (Effect.stMarkdown ("**Confidence Score:** " ++ toString prediction.confidence.num
        ++ "/" ++ toString prediction.confidence.den))
      teamInfoSection inp selected_game
    | none =>
      emit (Effect.stError "Could not generate a prediction for the selected game.")

/-- `main()` — lines 179-294 (the module-level API-key check, lines 8-17,
precedes `main` and is outside this model). -/
def main (inp : MainInputs) : EffM Unit := do
  emit (Effect.stTitle "NHL Outcome Predictor")
  emit (Effect.stMarkdown introMarkdown)
  emit (Effect.stDateInput "Select a date to fetch games:")
  let date_str := toString inp.year ++ "-" ++ zfill2 inp.month ++ "-" ++ zfill2 inp.day
  emit (Effect.stSubheader ("Games Scheduled for " ++ date_str))
  emit (Effect.stSpinner ("Fetching schedule for " ++ date_str ++ "..."))
  let schedule ← fetch_schedule inp.year inp.month inp.day inp.schedule_resp
  if schedule.isEmpty then
    emit (Effect.stWarning ("No games found for the selected date. "
      ++ "Verify that the API has up-to-date schedule data for that date."))
  else
    mainAfterSchedule inp date_str schedule

/-- Does the effect show an error message (`st.error`)? -/
def isStErrorE : Effect → Bool
  | Effect.stError _ => true
  | _ => false

/-- Does the effect persist anything to disk? -/
def isPersistE : Effect → Bool
  | Effect.fileWrite _ => true
  | Effect.pickleDump _ => true
  | _ => false

/-- Is the effect a classifier fit/predict call? -/
def isClassifierE : Effect → Bool
  | Effect.classifierFit => true
  | Effect.classifierPredict => true
  | _ => false

/-- Modelled from the spec: the persistence convention the spec attributes
to the program — a `*.pkl` model blob is dumped and a record is appended to
`prediction_log.json`.  A run with this shape would write both files. -/
def specPersistenceShape (t : List Effect) : Prop :=
  (∃ path, path.endsWith ".pkl" ∧ Effect.pickleDump path ∈ t)
    ∧ Effect.fileWrite "prediction_log.json" ∈ t

/-- Modelled from the spec: the claimed pipeline shape "fetch → flatten
into a table → fit a classifier → predict → render" — a run with this
shape fits a classifier and calls its predict method. -/
def specClassifierShape (t : List Effect) : Prop :=
  Effect.classifierFit ∈ t ∧ Effect.classifierPredict ∈ t

/-- A concrete schedule game for concrete evaluations: both teams have an
id, but the home team's object has no `"name"` key. -/
def gameNoHomeName : Game :=
  ⟨some ⟨some ⟨some ⟨some 1, none⟩⟩, some ⟨some ⟨some 2, some "B"⟩⟩⟩⟩

/-- A concrete schedule game with both ids and both names present. -/
def gameBothNames : Game :=
  ⟨some ⟨some ⟨some ⟨some 1, some "H"⟩⟩, some ⟨some ⟨some 2, some "A"⟩⟩⟩⟩

/-! ### Rewriting lemmas for the effect monad -/

@[simp] theorem EffM_bind_eq {α β : Type} (m : EffM α) (f : α → EffM β) :
    m >>= f = EffM.bind m f := rfl

@[simp] theorem EffM_bind_pair_ok {α β : Type} (t : List Effect) (a : α) (f : α → EffM β) :
    EffM.bind (t, Except.ok a) f = (t ++ (f a).1, (f a).2) := rfl

@[simp] theorem EffM_bind_pair_error {α β : Type} (t : List Effect) (ex : PyExn)
    (f : α → EffM β) : EffM.bind (t, Except.error ex) f = (t, Except.error ex) := rfl

@[simp] theorem EffM_pure_def {α : Type} (a : α) : (pure a : EffM α) = ([], Except.ok a) := rfl

@[simp] theorem emit_def (e : Effect) : emit e = ([e], Except.ok ()) := rfl

@[simp] theorem pyRaise_def {α : Type} (ex : PyExn) :
    (pyRaise ex : EffM α) = ([], Except.error ex) := rfl

@[simp] theorem liftHttp_ok {β : Type} (r : HttpResponse β) :
    liftHttp (Except.ok r) = ([], Except.ok r) := rfl

@[simp] theorem liftHttp_error {β : Type} (ex : PyExn) :
    liftHttp (Except.error ex) = (([], Except.error ex) : EffM (HttpResponse β)) := rfl

/-! ### Trace predicates

`TraceOK P m`: every effect the computation performs satisfies `P`.
`EffectPred P` bundles `P`'s truth on every effect the script can actually
emit; `dfPrediction` additionally records that a rendered prediction table
always carries a value `predict_game` produced. -/

def TraceOK (P : Effect → Prop) {α : Type} (m : EffM α) : Prop := ∀ e ∈ m.1, P e

structure EffectPred (P : Effect → Prop) : Prop where
  httpGet : ∀ s, P (Effect.httpGet s)
  title : ∀ s, P (Effect.stTitle s)
  markdown : ∀ s, P (Effect.stMarkdown s)
  errorMsg : ∀ s, P (Effect.stError s)
  warning : ∀ s, P (Effect.stWarning s)
  subheader : ∀ s, P (Effect.stSubheader s)
  spinner : ∀ s, P (Effect.stSpinner s)
  dateInput : ∀ s, P (Effect.stDateInput s)
  textInput : ∀ s, P (Effect.stTextInput s)
  selectbox : ∀ s, P (Effect.stSelectbox s)
  expander : ∀ s, P (Effect.stExpander s)
  dfPrediction : ∀ pr, (∃ g st, predict_game g st = some pr) → P (Effect.stDataframePrediction pr)
  dfPlayers : ∀ ps, P (Effect.stDataframePlayers ps)
  json : ∀ j, P (Effect.stJson j)

theorem traceOK_bind {P : Effect → Prop} {α β : Type} {m : EffM α} {f : α → EffM β}
    (hm : TraceOK P m) (hf : ∀ a, TraceOK P (f a)) : TraceOK P (m >>= f) := by
  obtain ⟨t, r⟩ := m
  cases r with
  | ok a =>
    intro e he
    rcases List.mem_append.mp he with h | h
    · exact hm e h
    · exact hf a e h
  | error ex =>
    intro e he
    exact hm e he

theorem traceOK_emit {P : Effect → Prop} {e : Effect} (h : P e) : TraceOK P (emit e) := by
  intro x hx
  rcases List.mem_singleton.mp hx with rfl
  exact h

theorem traceOK_pure {P : Effect → Prop} {α : Type} (a : α) : TraceOK P (pure a : EffM α) := by
  intro e he
  exact absurd he (List.not_mem_nil e)

theorem traceOK_pyRaise {P : Effect → Prop} {α : Type} (ex : PyExn) :
    TraceOK P (pyRaise ex : EffM α) := by
  intro e he
  exact absurd he (List.not_mem_nil e)

theorem traceOK_liftHttp {P : Effect → Prop} {β : Type} (r : HttpResult β) :
    TraceOK P (liftHttp r) := by
  intro e he
  cases r <;> exact absurd he (List.not_mem_nil e)

theorem traceOK_fetch_schedule {P : Effect → Prop} (h : EffectPred P)
    (y m d : Nat) (resp : HttpResult ScheduleBody) :
    TraceOK P (fetch_schedule y m d resp) := by
  unfold fetch_schedule
  refine traceOK_bind (traceOK_emit (h.httpGet _)) fun _ => ?_
  refine traceOK_bind (traceOK_liftHttp _) fun response => ?_
  split
  · exact traceOK_pure _
  · split
    · exact traceOK_bind (traceOK_emit (h.errorMsg _)) fun _ => traceOK_pure _
    · exact traceOK_pure _

theorem traceOK_fetch_teams {P : Effect → Prop} (h : EffectPred P)
    (resp : HttpResult TeamsBody) : TraceOK P (fetch_teams resp) := by
  unfold fetch_teams
  refine traceOK_bind (traceOK_emit (h.httpGet _)) fun _ => ?_
  refine traceOK_bind (traceOK_liftHttp _) fun response => ?_
  split
  · exact traceOK_bind (traceOK_emit (h.errorMsg _)) fun _ => traceOK_pure _
  · exact traceOK_pure _

theorem traceOK_fetch_standings {P : Effect → Prop} (h : EffectPred P)
    (season : String) (resp : HttpResult StandingsBody) :
    TraceOK P (fetch_standings season resp) := by
  unfold fetch_standings
  refine traceOK_bind (traceOK_emit (h.httpGet _)) fun _ => ?_
  refine traceOK_bind (traceOK_liftHttp _) fun response => ?_
  split
  · exact traceOK_bind (traceOK_emit (h.errorMsg _)) fun _ => traceOK_pure _
  · exact traceOK_pure _

theorem traceOK_fetch_team_stats {P : Effect → Prop} (h : EffectPred P)
    (team_id : Option Int) (resp : HttpResult Json) :
    TraceOK P (fetch_team_stats team_id resp) := by
  unfold fetch_team_stats
  refine traceOK_bind (traceOK_emit (h.httpGet _)) fun _ => ?_
  refine traceOK_bind (traceOK_liftHttp _) fun response => ?_
  split
  · exact traceOK_bind (traceOK_emit (h.errorMsg _)) fun _ => traceOK_pure _
  · exact traceOK_pure _

theorem traceOK_fetch_team_players {P : Effect → Prop} (h : EffectPred P)
    (team_id : Option Int) (resp : HttpResult PlayersBody) :
    TraceOK P (fetch_team_players team_id resp) := by
  unfold fetch_team_players
  refine traceOK_bind (traceOK_emit (h.httpGet _)) fun _ => ?_
  refine traceOK_bind (traceOK_liftHttp _) fun response => ?_
  split
  · exact traceOK_bind (traceOK_emit (h.errorMsg _)) fun _ => traceOK_pure _
  · exact traceOK_pure _

theorem traceOK_fetch_player_stats {P : Effect → Prop} (h : EffectPred P)
    (player_id : Option Int) (resp : HttpResult Json) :
    TraceOK P (fetch_player_stats player_id resp) := by
  unfold fetch_player_stats
  refine traceOK_bind (traceOK_emit (h.httpGet _)) fun _ => ?_
  refine traceOK_bind (traceOK_liftHttp _) fun response => ?_
  split
  · exact traceOK_bind (traceOK_emit (h.errorMsg _)) fun _ => traceOK_pure _
  · exact traceOK_pure _

theorem traceOK_playersSection {P : Effect → Prop} (h : EffectPred P)
    (team : Team) (players_resp : HttpResult PlayersBody) (player_choice : Nat)
    (player_stats_resp : HttpResult Json) (select_label stats_label : String) :
    TraceOK P (playersSection team players_resp player_choice player_stats_resp
      select_label stats_label) := by
  unfold playersSection
  refine traceOK_bind (traceOK_emit (h.expander _)) fun _ => ?_
  refine traceOK_bind (traceOK_fetch_team_players h _ _) fun players => ?_
  split
  · exact traceOK_pure _
  · refine traceOK_bind (traceOK_emit (h.dfPlayers _)) fun _ => ?_
    split
    · exact traceOK_pyRaise _
    · refine traceOK_bind (traceOK_emit (h.selectbox _)) fun _ => ?_
      dsimp only
      split
      · refine traceOK_bind (traceOK_emit (h.markdown _)) fun _ => ?_
        exact traceOK_bind (traceOK_fetch_player_stats h _ _) fun j => traceOK_emit (h.json _)
      · exact traceOK_pure _

theorem traceOK_teamStatsExpander {P : Effect → Prop} (h : EffectPred P)
    (team : Team) (stats_resp : HttpResult Json) :
    TraceOK P (teamStatsExpander team stats_resp) := by
  unfold teamStatsExpander
  split
  · refine traceOK_bind (traceOK_emit (h.expander _)) fun _ => ?_
    exact traceOK_bind (traceOK_fetch_team_stats h _ _) fun _ => traceOK_emit (h.json _)
  · exact traceOK_pure _

theorem traceOK_playersExpander {P : Effect → Prop} (h : EffectPred P)
    (team : Team) (players_resp : HttpResult PlayersBody) (player_choice : Nat)
    (player_stats_resp : HttpResult Json) (select_label stats_label : String) :
    TraceOK P (playersExpander team players_resp player_choice player_stats_resp
      select_label stats_label) := by
  unfold playersExpander
  split
  · exact traceOK_playersSection h _ _ _ _ _ _
  · exact traceOK_pure _

theorem traceOK_teamInfoSection {P : Effect → Prop} (h : EffectPred P)
    (inp : MainInputs) (selected_game : Game) :
    TraceOK P (teamInfoSection inp selected_game) := by
  unfold teamInfoSection
  refine traceOK_bind (traceOK_emit (h.subheader _)) fun _ => ?_
  refine traceOK_bind (traceOK_teamStatsExpander h _ _) fun _ => ?_
  refine traceOK_bind (traceOK_teamStatsExpander h _ _) fun _ => ?_
  refine traceOK_bind (traceOK_emit (h.subheader _)) fun _ => ?_
  refine traceOK_bind (traceOK_playersExpander h _ _ _ _ _ _) fun _ => ?_
  exact traceOK_playersExpander h _ _ _ _ _ _

theorem traceOK_mainAfterSchedule {P : Effect → Prop} (h : EffectPred P)
    (inp : MainInputs) (date_str : String) (schedule : List Game) :
    TraceOK P (mainAfterSchedule inp date_str schedule) := by
  unfold mainAfterSchedule
  refine traceOK_bind (traceOK_emit (h.spinner _)) fun _ => ?_
  refine traceOK_bind (traceOK_fetch_teams h _) fun _teams => ?_
  refine traceOK_bind (traceOK_emit (h.textInput _)) fun _ => ?_
  refine traceOK_bind (traceOK_emit (h.spinner _)) fun _ => ?_
  refine traceOK_bind (traceOK_fetch_standings h _ _) fun standings => ?_
  refine traceOK_bind (traceOK_emit (h.selectbox _)) fun _ => ?_
  dsimp only
  split
  · exact traceOK_pyRaise _
  · rename_i selected_game _
    split
    · rename_i prediction heq
      refine traceOK_bind (traceOK_emit (h.subheader _)) fun _ => ?_
      refine traceOK_bind (traceOK_emit (h.dfPrediction _ ⟨_, _, heq⟩)) fun _ => ?_
      refine traceOK_bind (traceOK_emit (h.markdown _)) fun _ => ?_
      refine traceOK_bind (traceOK_emit (h.markdown _)) fun _ => ?_
      exact traceOK_teamInfoSection h _ _
    · exact traceOK_emit (h.errorMsg _)

theorem traceOK_main {P : Effect → Prop} (h : EffectPred P) (inp : MainInputs) :
    TraceOK P (main inp) := by
  unfold main
  refine traceOK_bind (traceOK_emit (h.title _)) fun _ => ?_
  refine traceOK_bind (traceOK_emit (h.markdown _)) fun _ => ?_
  refine traceOK_bind (traceOK_emit (h.dateInput _)) fun _ => ?_
  refine traceOK_bind (traceOK_emit (h.subheader _)) fun _ => ?_
  refine traceOK_bind (traceOK_emit (h.spinner _)) fun _ => ?_
  refine traceOK_bind (traceOK_fetch_schedule h _ _ _ _) fun schedule => ?_
  split
  · exact traceOK_emit (h.warning _)
  · exact traceOK_mainAfterSchedule h _ _ _


/-! ### Unfolding lemmas for the prediction logic -/

theorem predict_game_none (game : Game) (standings : Standings)
    (h : pyTruthyId (gameHomeTeam game).id = false ∨ pyTruthyId (gameAwayTeam game).id = false) :
    predict_game game standings = none := by
  unfold predict_game
  dsimp only
  rcases h with h | h <;> rw [h] <;> simp

theorem predict_game_some (game : Game) (standings : Standings)
    (h1 : pyTruthyId (gameHomeTeam game).id = true)
    (h2 : pyTruthyId (gameAwayTeam game).id = true) :
    predict_game game standings =
      some
        { homeTeam := (gameHomeTeam game).name.getD "Unknown"
          awayTeam := (gameAwayTeam game).name.getD "Unknown"
          homeScore := pyRound3 (calculate_team_score
            ((standings.lookup (gameHomeTeam game).id).getD emptyStats) true)
          awayScore := pyRound3 (calculate_team_score
            ((standings.lookup (gameAwayTeam game).id).getD emptyStats) false)
          predictedWinner :=
            if calculate_team_score ((standings.lookup (gameHomeTeam game).id).getD emptyStats) true
                ≥ calculate_team_score ((standings.lookup (gameAwayTeam game).id).getD emptyStats) false
            then (gameHomeTeam game).name else (gameAwayTeam game).name
          confidence := pyRound3
            (|calculate_team_score ((standings.lookup (gameHomeTeam game).id).getD emptyStats) true
              - calculate_team_score ((standings.lookup (gameAwayTeam game).id).getD emptyStats) false|) } := by
  unfold predict_game
  dsimp only
  rw [h1, h2]
  simp only [Bool.not_true, Bool.or_self, Bool.false_or, Bool.false_eq_true,
    not_false_eq_true, if_false]

/-- The home-advantage structure of the score. -/
theorem calculate_team_score_home_advantage (ts : TeamStats) :
    calculate_team_score ts true = calculate_team_score ts false + 0.15 := by
  simp [calculate_team_score]

theorem pyRound3_zero : pyRound3 0 = 0 := by
  norm_num [pyRound3, roundHalfToEven]

theorem pyRound3_p15 : pyRound3 0.15 = 0.15 := by
  norm_num [pyRound3, roundHalfToEven]

/-- Concrete evaluation: the sample game whose home team has no name,
against empty standings. -/
theorem predict_game_gameNoHomeName :
    predict_game gameNoHomeName [] =
      some ⟨"Unknown", "B", 3/20, 0, none, 3/20⟩ := by
  rw [predict_game_some gameNoHomeName [] rfl rfl]
  have hh : calculate_team_score emptyStats true = 3/20 := by
    norm_num [calculate_team_score, emptyStats]
  have ha : calculate_team_score emptyStats false = 0 := by
    norm_num [calculate_team_score, emptyStats]
  have hlh : ((([] : Standings)).lookup (gameHomeTeam gameNoHomeName).id).getD emptyStats
      = emptyStats := rfl
  have hla : ((([] : Standings)).lookup (gameAwayTeam gameNoHomeName).id).getD emptyStats
      = emptyStats := rfl
  rw [hlh, hla, hh, ha]
  have habs : |(3:ℚ)/20 - 0| = 3/20 := by norm_num
  have hge : ((3:ℚ)/20 ≥ 0) := by norm_num
  have hr : pyRound3 (3/20) = 3/20 := by norm_num [pyRound3, roundHalfToEven]
  rw [if_pos hge, habs, hr, pyRound3_zero]
  rfl

/-- Concrete evaluation: the sample game with both names, against empty
standings. -/
theorem predict_game_gameBothNames :
    predict_game gameBothNames [] =
      some ⟨"H", "A", 3/20, 0, some "H", 3/20⟩ := by
  rw [predict_game_some gameBothNames [] rfl rfl]
  have hh : calculate_team_score emptyStats true = 3/20 := by
    norm_num [calculate_team_score, emptyStats]
  have ha : calculate_team_score emptyStats false = 0 := by
    norm_num [calculate_team_score, emptyStats]
  have hlh : ((([] : Standings)).lookup (gameHomeTeam gameBothNames).id).getD emptyStats
      = emptyStats := rfl
  have hla : ((([] : Standings)).lookup (gameAwayTeam gameBothNames).id).getD emptyStats
      = emptyStats := rfl
  rw [hlh, hla, hh, ha]
  have habs : |(3:ℚ)/20 - 0| = 3/20 := by norm_num
  have hge : ((3:ℚ)/20 ≥ 0) := by norm_num
  have hr : pyRound3 (3/20) = 3/20 := by norm_num [pyRound3, roundHalfToEven]
  rw [if_pos hge, habs, hr, pyRound3_zero]
  rfl

/-! ### Claims -/

/-- C3: for every team_stats dict and flag is_home, `calculate_team_score`
returns winPercentage * 0.4 + (goalDifferential / 20.0) * 0.3 +
corsiForPercentage * 0.15, plus 0.15 exactly when is_home is true; the
only normalization applied is the division of goalDifferential by 20.0.
(Each metric is the dict's value with default 0.) -/
theorem claim_C3 (team_stats : TeamStats) (is_home : Bool) :
    calculate_team_score team_stats is_home =
      (team_stats.winPercentage.getD 0) * 0.4
        + ((team_stats.goalDifferential.getD 0) / 20) * 0.3
        + (team_stats.corsiForPercentage.getD 0) * 0.15
        + (if is_home then 0.15 else 0) := by
  cases is_home <;> simp [calculate_team_score]

/-- C4: missing numeric fields default to zero, both in the rows
`fetch_standings` aggregates and in `calculate_team_score`; a team absent
from the standings is scored as if all three metrics were zero. -/
theorem claim_C4 :
    (∀ row : StandingRow,
      (row.winPercentage = none → (standingsRow row).winPercentage = some 0)
        ∧ (row.goalDifferential = none → (standingsRow row).goalDifferential = some 0)
        ∧ (row.corsiForPercentage = none → (standingsRow row).corsiForPercentage = some 0))
    ∧ (∀ is_home : Bool,
        calculate_team_score emptyStats is_home
          = calculate_team_score ⟨some 0, some 0, some 0⟩ is_home)
    ∧ (∀ (game : Game) (standings : Standings),
        pyTruthyId (gameHomeTeam game).id = true →
        pyTruthyId (gameAwayTeam game).id = true →
        standings.lookup (gameHomeTeam game).id = none →
        ∃ r, predict_game game standings = some r
          ∧ r.homeScore = pyRound3 (calculate_team_score ⟨some 0, some 0, some 0⟩ true)) := by
  refine ⟨?_, ?_, ?_⟩
  · intro row
    refine ⟨?_, ?_, ?_⟩ <;> intro h <;> simp [standingsRow, h]
  · intro is_home
    rfl
  · intro game standings h1 h2 hlook
    rw [predict_game_some game standings h1 h2]
    refine ⟨_, rfl, ?_⟩
    rw [hlook]
    rfl

/-- C8: `predict_game` returns None exactly when the home or away team id
is missing or falsy; otherwise it returns a record (whose type has exactly
the fields homeTeam, awayTeam, homeScore, awayScore, predictedWinner,
confidence). -/
theorem claim_C8 (game : Game) (standings : Standings) :
    predict_game game standings = none
      ↔ (pyTruthyId (gameHomeTeam game).id = false
          ∨ pyTruthyId (gameAwayTeam game).id = false) := by
  constructor
  · intro h
    by_contra hc
    push_neg at hc
    obtain ⟨h1, h2⟩ := hc
    simp only [ne_eq, Bool.not_eq_false] at h1 h2
    rw [predict_game_some game standings h1 h2] at h
    exact Option.noConfusion h
  · exact predict_game_none game standings

/-- C9: when the two teams' metrics tie (in particular when their standings
entries are identical, e.g. both teams absent), the home team is predicted
and the confidence before rounding is exactly the 0.15 home-advantage
bonus (and so is the rounded, stored confidence). -/
theorem claim_C9 (game : Game) (standings : Standings)
    (h1 : pyTruthyId (gameHomeTeam game).id = true)
    (h2 : pyTruthyId (gameAwayTeam game).id = true)
    (h3 : calculate_team_score ((standings.lookup (gameHomeTeam game).id).getD emptyStats) false
        = calculate_team_score ((standings.lookup (gameAwayTeam game).id).getD emptyStats) false) :
    ∃ r, predict_game game standings = some r
      ∧ r.predictedWinner = (gameHomeTeam game).name
      ∧ calculate_team_score ((standings.lookup (gameHomeTeam game).id).getD emptyStats) true
          - calculate_team_score ((standings.lookup (gameAwayTeam game).id).getD emptyStats) false
          = 0.15
      ∧ r.confidence = 0.15 := by
  have hadv := calculate_team_score_home_advantage
    ((standings.lookup (gameHomeTeam game).id).getD emptyStats)
  have hdiff : calculate_team_score ((standings.lookup (gameHomeTeam game).id).getD emptyStats) true
      - calculate_team_score ((standings.lookup (gameAwayTeam game).id).getD emptyStats) false
      = 0.15 := by
    rw [hadv, h3]; ring
  have hge : calculate_team_score ((standings.lookup (gameHomeTeam game).id).getD emptyStats) true
      ≥ calculate_team_score ((standings.lookup (gameAwayTeam game).id).getD emptyStats) false := by
    rw [hadv, h3]; norm_num
  rw [predict_game_some game standings h1 h2]
  refine ⟨_, rfl, ?_, hdiff, ?_⟩
  · rw [if_pos hge]
  · have habs : |calculate_team_score ((standings.lookup (gameHomeTeam game).id).getD emptyStats) true
        - calculate_team_score ((standings.lookup (gameAwayTeam game).id).getD emptyStats) false|
        = 0.15 := by
      rw [hdiff]; norm_num
    dsimp only
    rw [habs, pyRound3_p15]

/-- C9 witness: a concrete game whose two teams are both absent from the
standings — identical (empty) entries; the home team "H" is predicted with
confidence 0.15. -/
theorem claim_C9_witness :
    ∃ r, predict_game gameBothNames [] = some r
      ∧ r.predictedWinner = (gameHomeTeam gameBothNames).name
      ∧ calculate_team_score ((([] : Standings).lookup (gameHomeTeam gameBothNames).id).getD emptyStats) true
          - calculate_team_score ((([] : Standings).lookup (gameAwayTeam gameBothNames).id).getD emptyStats) false
          = 0.15
      ∧ r.confidence = 0.15 :=
  claim_C9 gameBothNames [] rfl rfl rfl

/-- C10: `calculate_team_score` and `predict_game` are pure functions of
their arguments: equal inputs give equal outputs.  (Both are embedded as
state-free functions because their Python bodies only read their
arguments: no global reads, no mutation, no I/O.) -/
theorem claim_C10 (ts1 ts2 : TeamStats) (b1 b2 : Bool) (g1 g2 : Game) (s1 s2 : Standings)
    (hts : ts1 = ts2) (hb : b1 = b2) (hg : g1 = g2) (hs : s1 = s2) :
    calculate_team_score ts1 b1 = calculate_team_score ts2 b2
      ∧ predict_game g1 s1 = predict_game g2 s2 := by
  subst hts hb hg hs
  exact ⟨rfl, rfl⟩

/-- C10 witness: the purity statement applied at concrete inputs. -/
theorem claim_C10_witness :
    calculate_team_score emptyStats true = calculate_team_score emptyStats true
      ∧ predict_game gameBothNames [] = predict_game gameBothNames [] :=
  claim_C10 emptyStats emptyStats true true gameBothNames gameBothNames [] [] rfl rfl rfl rfl

/-- C5 counterexample: for the game whose home team has an id but no name
(against empty standings), the result's predictedWinner is Python `None`,
while homeTeam is the fallback "Unknown" and awayTeam is "B" — the
predicted winner equals neither field of the result. -/
theorem claim_C5_counterexample :
    ∃ r, predict_game gameNoHomeName [] = some r
      ∧ ¬(r.predictedWinner = some r.homeTeam ∨ r.predictedWinner = some r.awayTeam) := by
  refine ⟨⟨"Unknown", "B", 3/20, 0, none, 3/20⟩, predict_game_gameNoHomeName, ?_⟩
  simp

/-- C5 (amended): whenever `predict_game` returns a result and both teams'
name keys are present in the game object, the predictedWinner equals the
result's homeTeam or awayTeam field; when the winning side's name key is
absent the predictedWinner is None while the displayed fields fall back to
"Unknown". -/
theorem claim_C5 (game : Game) (standings : Standings) (r : Prediction)
    (hr : predict_game game standings = some r)
    (hn1 : (gameHomeTeam game).name.isSome = true)
    (hn2 : (gameAwayTeam game).name.isSome = true) :
    r.predictedWinner = some r.homeTeam ∨ r.predictedWinner = some r.awayTeam := by
  have h1 : pyTruthyId (gameHomeTeam game).id = true := by
    by_contra hc
    rw [Bool.not_eq_true] at hc
    rw [predict_game_none game standings (Or.inl hc)] at hr
    exact Option.noConfusion hr
  have h2 : pyTruthyId (gameAwayTeam game).id = true := by
    by_contra hc
    rw [Bool.not_eq_true] at hc
    rw [predict_game_none game standings (Or.inr hc)] at hr
    exact Option.noConfusion hr
  rw [predict_game_some game standings h1 h2] at hr
  obtain ⟨s1, hs1⟩ := Option.isSome_iff_exists.mp hn1
  obtain ⟨s2, hs2⟩ := Option.isSome_iff_exists.mp hn2
  injection hr with hr
  subst hr
  dsimp only
  rw [hs1, hs2]
  dsimp only [Option.getD_some]
  split
  · exact Or.inl rfl
  · exact Or.inr rfl

/-- C5 witness: a game with both names present; the home team "H" is
predicted and indeed equals the result's homeTeam field. -/
theorem claim_C5_witness :
    (⟨"H", "A", 3/20, 0, some "H", 3/20⟩ : Prediction).predictedWinner
        = some (⟨"H", "A", 3/20, 0, some "H", 3/20⟩ : Prediction).homeTeam
      ∨ (⟨"H", "A", 3/20, 0, some "H", 3/20⟩ : Prediction).predictedWinner
        = some (⟨"H", "A", 3/20, 0, some "H", 3/20⟩ : Prediction).awayTeam :=
  claim_C5 gameBothNames [] _ predict_game_gameBothNames rfl rfl

/-! ### Evaluation lemmas for the fetch helpers on responses -/

theorem fetch_schedule_eval (y m d : Nat) (code : Nat) (body : ScheduleBody) :
    fetch_schedule y m d (Except.ok ⟨code, body⟩) =
      if code = 404 then ([Effect.httpGet "nhlschedule"], Except.ok [])
      else if code ≠ 200 then
        ([Effect.httpGet "nhlschedule",
          Effect.stError ("Error fetching schedule data! HTTP " ++ toString code)],
         Except.ok [])
      else ([Effect.httpGet "nhlschedule"], Except.ok (body.games.getD [])) := by
  by_cases h4 : code = 404
  · simp [fetch_schedule, h4, emit_def, liftHttp_ok]
  · by_cases h2 : code = 200
    · simp [fetch_schedule, h4, h2, emit_def, liftHttp_ok]
    · simp [fetch_schedule, h4, h2, emit_def, liftHttp_ok]

theorem fetch_teams_eval (code : Nat) (body : TeamsBody) :
    fetch_teams (Except.ok ⟨code, body⟩) =
      if code ≠ 200 then
        ([Effect.httpGet "nhlteamlist",
          Effect.stError ("Error fetching teams data! HTTP " ++ toString code)],
         Except.ok [])
      else ([Effect.httpGet "nhlteamlist"],
        Except.ok ((body.teams.getD []).foldl (fun acc team => pyInsert acc team.id team) [])) := by
  by_cases h2 : code = 200
  · simp [fetch_teams, h2, emit_def, liftHttp_ok]
  · simp [fetch_teams, h2, emit_def, liftHttp_ok]

theorem fetch_standings_eval (season : String) (code : Nat) (body : StandingsBody) :
    fetch_standings season (Except.ok ⟨code, body⟩) =
      if code ≠ 200 then
        ([Effect.httpGet "nhlstandings",
          Effect.stError ("Error fetching standings data! HTTP " ++ toString code)],
         Except.ok [])
      else ([Effect.httpGet "nhlstandings"],
        Except.ok ((body.standings.getD []).foldl
          (fun acc team => pyInsert acc team.teamId (standingsRow team)) [])) := by
  by_cases h2 : code = 200
  · simp [fetch_standings, h2, emit_def, liftHttp_ok]
  · simp [fetch_standings, h2, emit_def, liftHttp_ok]

theorem fetch_team_stats_eval (tid : Option Int) (code : Nat) (body : Json) :
    fetch_team_stats tid (Except.ok ⟨code, body⟩) =
      if code ≠ 200 then
        ([Effect.httpGet "team-statistic",
          Effect.stError ("Error fetching team stats for team " ++ showOptId tid
            ++ "! HTTP " ++ toString code)],
         Except.ok (Json.obj []))
      else ([Effect.httpGet "team-statistic"], Except.ok body) := by
  by_cases h2 : code = 200
  · simp [fetch_team_stats, h2, emit_def, liftHttp_ok]
  · simp [fetch_team_stats, h2, emit_def, liftHttp_ok]

theorem fetch_team_players_eval (tid : Option Int) (code : Nat) (body : PlayersBody) :
    fetch_team_players tid (Except.ok ⟨code, body⟩) =
      if code ≠ 200 then
        ([Effect.httpGet "nhlteamplayers",
          Effect.stError ("Error fetching team players for team " ++ showOptId tid
            ++ "! HTTP " ++ toString code)],
         Except.ok [])
      else ([Effect.httpGet "nhlteamplayers"], Except.ok (body.players.getD [])) := by
  by_cases h2 : code = 200
  · simp [fetch_team_players, h2, emit_def, liftHttp_ok]
  · simp [fetch_team_players, h2, emit_def, liftHttp_ok]

theorem fetch_player_stats_eval (pid : Option Int) (code : Nat) (body : Json) :
    fetch_player_stats pid (Except.ok ⟨code, body⟩) =
      if code ≠ 200 then
        ([Effect.httpGet "player-statistic",
          Effect.stError ("Error fetching player stats for player " ++ showOptId pid
            ++ "! HTTP " ++ toString code)],
         Except.ok (Json.obj []))
      else ([Effect.httpGet "player-statistic"], Except.ok body) := by
  by_cases h2 : code = 200
  · simp [fetch_player_stats, h2, emit_def, liftHttp_ok]
  · simp [fetch_player_stats, h2, emit_def, liftHttp_ok]

/-- C1 (amended): no fetch function catches exceptions — an exception
raised by the HTTP call propagates unchanged to the caller of every fetch
function; only non-200 status codes are handled (error string plus
empty/default result). -/
theorem claim_C1 (ex : PyExn) (y m d : Nat) (season : String) (tid pid : Option Int) :
    (fetch_schedule y m d (Except.error ex)).2 = Except.error ex
      ∧ (fetch_teams (Except.error ex)).2 = Except.error ex
      ∧ (fetch_standings season (Except.error ex)).2 = Except.error ex
      ∧ (fetch_team_stats tid (Except.error ex)).2 = Except.error ex
      ∧ (fetch_team_players tid (Except.error ex)).2 = Except.error ex
      ∧ (fetch_player_stats pid (Except.error ex)).2 = Except.error ex :=
  ⟨rfl, rfl, rfl, rfl, rfl, rfl⟩

/-- C1 counterexample: a concrete exception raised by the HTTP call inside
`fetch_schedule` propagates to the caller, so it is not true that no fetch
call ever propagates an exception. -/
theorem claim_C1_counterexample :
    (fetch_schedule 2022 1 1 (Except.error (PyExn.raised "ConnectionError"))).2
      = Except.error (PyExn.raised "ConnectionError") := rfl

/-- C2 counterexample: `fetch_schedule` on a concrete 404 response returns
`[]` without surfacing any UI error, so it is not true that every non-200
status (including 404) surfaces a warning/error. -/
theorem claim_C2_counterexample :
    (fetch_schedule 2022 1 1 (Except.ok ⟨404, ⟨some []⟩⟩)).2 = Except.ok []
      ∧ ((fetch_schedule 2022 1 1 (Except.ok ⟨404, ⟨some []⟩⟩)).1.any isStErrorE) = false :=
  ⟨rfl, rfl⟩

/-- C2 (amended): on every non-200 status every fetch function returns an
empty result, and every fetch function except `fetch_schedule` at status
404 also surfaces a UI error; `fetch_schedule` returns `[]` silently on
404. -/
theorem claim_C2 :
    (∀ (y m d : Nat) (body : ScheduleBody) (code : Nat), code ≠ 200 → code ≠ 404 →
      (fetch_schedule y m d (Except.ok ⟨code, body⟩)).2 = Except.ok []
        ∧ ((fetch_schedule y m d (Except.ok ⟨code, body⟩)).1.any isStErrorE) = true)
    ∧ (∀ (y m d : Nat) (body : ScheduleBody),
        (fetch_schedule y m d (Except.ok ⟨404, body⟩)).2 = Except.ok []
          ∧ ((fetch_schedule y m d (Except.ok ⟨404, body⟩)).1.any isStErrorE) = false)
    ∧ (∀ (body : TeamsBody) (code : Nat), code ≠ 200 →
        (fetch_teams (Except.ok ⟨code, body⟩)).2 = Except.ok []
          ∧ ((fetch_teams (Except.ok ⟨code, body⟩)).1.any isStErrorE) = true)
    ∧ (∀ (season : String) (body : StandingsBody) (code : Nat), code ≠ 200 →
        (fetch_standings season (Except.ok ⟨code, body⟩)).2 = Except.ok []
          ∧ ((fetch_standings season (Except.ok ⟨code, body⟩)).1.any isStErrorE) = true)
    ∧ (∀ (tid : Option Int) (body : Json) (code : Nat), code ≠ 200 →
        (fetch_team_stats tid (Except.ok ⟨code, body⟩)).2 = Except.ok (Json.obj [])
          ∧ ((fetch_team_stats tid (Except.ok ⟨code, body⟩)).1.any isStErrorE) = true)
    ∧ (∀ (tid : Option Int) (body : PlayersBody) (code : Nat), code ≠ 200 →
        (fetch_team_players tid (Except.ok ⟨code, body⟩)).2 = Except.ok []
          ∧ ((fetch_team_players tid (Except.ok ⟨code, body⟩)).1.any isStErrorE) = true)
    ∧ (∀ (pid : Option Int) (body : Json) (code : Nat), code ≠ 200 →
        (fetch_player_stats pid (Except.ok ⟨code, body⟩)).2 = Except.ok (Json.obj [])
          ∧ ((fetch_player_stats pid (Except.ok ⟨code, body⟩)).1.any isStErrorE) = true) := by
  refine ⟨?_, ?_, ?_, ?_, ?_, ?_, ?_⟩
  · intro y m d body code h200 h404
    rw [fetch_schedule_eval, if_neg h404, if_pos h200]
    exact ⟨rfl, rfl⟩
  · intro y m d body
    rw [fetch_schedule_eval, if_pos rfl]
    exact ⟨rfl, rfl⟩
  · intro body code h200
    rw [fetch_teams_eval, if_pos h200]
    exact ⟨rfl, rfl⟩
  · intro season body code h200
    rw [fetch_standings_eval, if_pos h200]
    exact ⟨rfl, rfl⟩
  · intro tid body code h200
    rw [fetch_team_stats_eval, if_pos h200]
    exact ⟨rfl, rfl⟩
  · intro tid body code h200
    rw [fetch_team_players_eval, if_pos h200]
    exact ⟨rfl, rfl⟩
  · intro pid body code h200
    rw [fetch_player_stats_eval, if_pos h200]
    exact ⟨rfl, rfl⟩

/-! ### Claims about the whole main flow -/

theorem effectPred_noPersist : EffectPred (fun e => isPersistE e = false) := by
  constructor <;> intros <;> rfl

theorem effectPred_noClassifier : EffectPred (fun e => isClassifierE e = false) := by
  constructor <;> intros <;> rfl

theorem effectPred_predictionSource :
    EffectPred (fun e => ∀ pr : Prediction, e = Effect.stDataframePrediction pr →
      ∃ (g : Game) (st : Standings), predict_game g st = some pr) := by
  constructor
  case dfPrediction =>
    intro pr hex pr2 heq
    injection heq with h
    subst h
    exact hex
  all_goals intro s pr heq
  all_goals exact Effect.noConfusion heq

/-- C6 (amended): running the main flow writes nothing to disk — no model
pickle is dumped and no prediction_log.json record is appended, on any
run. -/
theorem claim_C6 : ∀ inp : MainInputs, (main inp).1.filter isPersistE = [] := by
  intro inp
  have h := traceOK_main effectPred_noPersist inp
  rw [List.filter_eq_nil_iff]
  intro a ha
  simp [h a ha]

/-- C6 counterexample: no execution of the main flow has the spec's
persistence shape (a `*.pkl` pickle dump plus a `prediction_log.json`
append). -/
theorem claim_C6_counterexample :
    ¬ ∃ inp : MainInputs, specPersistenceShape (main inp).1 := by
  rintro ⟨inp, ⟨path, _hext, hdump⟩, _hlog⟩
  have h := traceOK_main effectPred_noPersist inp _ hdump
  simp [isPersistE] at h

/-- C7 (amended): the displayed prediction is not produced by a classifier:
no run of the main flow fits or queries a classifier, and every prediction
table the flow renders carries a value computed by the pure heuristic
`predict_game` on some game and standings. -/
theorem claim_C7 :
    (∀ inp : MainInputs, (main inp).1.filter isClassifierE = [])
      ∧ (∀ (inp : MainInputs) (pr : Prediction),
          Effect.stDataframePrediction pr ∈ (main inp).1 →
          ∃ (g : Game) (st : Standings), predict_game g st = some pr) := by
  constructor
  · intro inp
    have h := traceOK_main effectPred_noClassifier inp
    rw [List.filter_eq_nil_iff]
    intro a ha
    simp [h a ha]
  · intro inp pr hmem
    exact traceOK_main effectPred_predictionSource inp _ hmem pr rfl

/-- C7 counterexample: no execution of the main flow has the spec's
"fit a classifier then call predict" shape. -/
theorem claim_C7_counterexample :
    ¬ ∃ inp : MainInputs, specClassifierShape (main inp).1 := by
  rintro ⟨inp, hfit, _hpredict⟩
  have h := traceOK_main effectPred_noClassifier inp _ hfit
  simp [isClassifierE] at h

end NHL
